import Mathlib

/-!
Verification of the WebiBook analytics backend.

The repository contains several near-duplicate server variants.  We embed
the three that the claims reference:

* `Part3`    — the full MongoDB variant (src/unnamed/part_003): register,
  save/unsave with catalog check and savedCount maintenance, click with
  catalog upsert, visit tracking, calculateRetention.
* `Part1`    — the dual-backend variant (src/unnamed/part_001): a durable
  (MongoDB) store and an in-memory fallback, token mint/verify, register,
  profile, save/unsave on both paths.
* `ServerJs` — the file-backed variant (src/server.js, second copy):
  userSessions based visit tracking and the cohort retention report.

Timestamps are modelled as integer epoch milliseconds.  JavaScript numbers
are modelled as `Int` so that non-negativity of counters is a real
property, not a typing artefact.  Missing string fields are modelled as
the empty string (JavaScript falsy), missing objects as `Option`.
-/

namespace WebiBook

/-- One day in milliseconds, as written in the source
(`24 * 60 * 60 * 1000`). -/
def dayMs : Int := 24 * 60 * 60 * 1000

/-- JavaScript `Math.round(a / b * 100)` for non-negative integers, with
the source convention that a zero denominator yields 0.  `Math.round`
rounds half away from zero for positive arguments, which for naturals is
`(200 * a + b) / (2 * b)` with floor division. -/
def jsRound100 (a b : Nat) : Nat :=
  if b = 0 then 0 else (200 * a + b) / (2 * b)

/-- JavaScript `email.includes('@')`. -/
def jsIncludesAt (s : String) : Bool := s.data.any (fun c => c == '@')

/-- JavaScript `toLowerCase()` on the character data (ASCII case map —
the only case the embedded inputs use). -/
def jsToLower (s : String) : String := ⟨s.data.map Char.toLower⟩

/-- Whitespace removed by JavaScript `trim()` (the ASCII part). -/
def isJsSpace (c : Char) : Bool :=
  c == ' ' || c == '\t' || c == '\n' || c == '\r'

/-- JavaScript `trim()`: strip leading and trailing whitespace. -/
def jsTrim (s : String) : String :=
  ⟨((s.data.dropWhile isJsSpace).reverse.dropWhile isJsSpace).reverse⟩

/-- JavaScript `email.split('@')[0]`: the characters before the first
'@'. -/
def jsLocalPart (s : String) : String :=
  ⟨s.data.takeWhile (fun c => c != '@')⟩

namespace Part3

/-- An entry of a user saved-events set: `savedEvents.push({ eventId, savedAt: new Date() })`. -/
structure SavedEntry where
  eventId : String
  savedAt : Int
deriving Repr, DecidableEq

/-- A catalog entry (models/Event.js).  Only the fields the engagement
aggregator reads or writes are kept; `savedCount` and `clickCount` default
to 0 in the schema. -/
structure Event where
  eventId : String
  title : String
  topic : String
  savedCount : Int
  clickCount : Int
deriving Repr, DecidableEq

/-- A user document (models/User.js), restricted to the fields the
handlers touch. -/
structure User where
  id : String
  email : String
  name : String
  savedEvents : List SavedEntry
  visitCount : Int
  firstVisit : Int
  lastVisit : Int
deriving Repr, DecidableEq

/-- An EventClick document (models/EventClick.js): append-only audit
record written by the click handler. -/
structure Click where
  eventId : String
  eventTitle : String
  eventTopic : String
  userId : Option String
  sessionId : String
  clickedAt : Int
deriving Repr, DecidableEq

/-- A Visit document (models/Visit.js), restricted to the fields the
visit handler writes. -/
structure Visit where
  userId : Option String
  sessionId : String
  isNewUser : Bool
  isReturning : Bool
  visitedAt : Int
deriving Repr, DecidableEq

/-- Outcome of the save/unsave handlers: HTTP 400, 404, or the JSON
response carrying `savedEvents`. -/
inductive SaveResult where
  | invalidInput
  | notFound
  | ok (savedEvents : List SavedEntry)
deriving Repr, DecidableEq

/-- Update the first catalog entry with the given `eventId` (Mongoose
`findOne` + mutate + `save`). -/
def updateEvent : List Event → String → (Event → Event) → List Event
  | [], _, _ => []
  | e :: es, eid, f =>
    if e.eventId == eid then f e :: es else e :: updateEvent es eid f

/-- The savedCount the catalog currently records for `eid` (0 when the
event is absent). -/
def savedCountOf (events : List Event) (eid : String) : Int :=
  match events.find? (fun e => e.eventId == eid) with
  | some e => e.savedCount
  | none => 0

/-- The clickCount the catalog currently records for `eid` (0 when the
event is absent). -/
def clickCountOf (events : List Event) (eid : String) : Int :=
  match events.find? (fun e => e.eventId == eid) with
  | some e => e.clickCount
  | none => 0

/-- POST /api/events/save (src/unnamed/part_003, lines 303-345), acting on
the resolved actor record.  Rejects a missing eventId, returns 404 when
the event is not in the catalog, otherwise adds the entry unless already
present and increments the event savedCount. -/
def saveEvent (now : Int) (u : User) (eid : String) (events : List Event) :
    SaveResult × User × List Event :=
  if eid = "" then (.invalidInput, u, events)
  else
    match events.find? (fun e => e.eventId == eid) with
    | none => (.notFound, u, events)
    | some _ =>
      if u.savedEvents.any (fun s => s.eventId == eid) then
        (.ok u.savedEvents, u, events)
      else
        let u' : User := { u with savedEvents := u.savedEvents ++ [⟨eid, now⟩] }
        let events' := updateEvent events eid
          (fun e => { e with savedCount := e.savedCount + 1 })
        (.ok u'.savedEvents, u', events')

/-- The unsave handler update of the catalog: `findOne({eventId})`, then
decrement only `if (event && event.savedCount > 0)`. -/
def unsaveDec : List Event → String → List Event
  | [], _ => []
  | e :: es, eid =>
    if e.eventId == eid then
      (if e.savedCount > 0 then { e with savedCount := e.savedCount - 1 } :: es
       else e :: es)
    else e :: unsaveDec es eid

/-- POST /api/events/unsave (src/unnamed/part_003, lines 348-379): filters
the entry out of the saved set unconditionally, then decrements the event
savedCount whenever the event exists and its savedCount is positive. -/
def unsaveEvent (u : User) (eid : String) (events : List Event) :
    SaveResult × User × List Event :=
  if eid = "" then (.invalidInput, u, events)
  else
    let u' : User := { u with savedEvents := u.savedEvents.filter (fun s => s.eventId != eid) }
    (.ok u'.savedEvents, u', unsaveDec events eid)

/-- Models `Event.findOneAndUpdate({eventId}, { $inc: { clickCount: 1 } }, { upsert: true })`:
increment the first match, or insert a minimal catalog entry (schema
defaults give savedCount 0, the other descriptive fields are left
empty). -/
def upsertClick : List Event → String → List Event
  | [], eid => [{ eventId := eid, title := "", topic := "",
                  savedCount := 0, clickCount := 1 }]
  | e :: es, eid =>
    if e.eventId == eid then { e with clickCount := e.clickCount + 1 } :: es
    else e :: upsertClick es eid

/-- Outcome of the click handler. -/
inductive ClickResult where
  | invalidInput
  | ok
deriving Repr, DecidableEq

/-- POST /api/events/click (src/unnamed/part_003, lines 382-420): rejects
a missing eventId, appends an EventClick record (title defaulting to the
eventId, topic to "unknown", sessionId cookie to "anonymous"), then
upserts the catalog entry with an incremented clickCount. -/
def clickEvent (now : Int) (eid eventTitle eventTopic : String)
    (userId : Option String) (cookieSessionId : String)
    (clicks : List Click) (events : List Event) :
    ClickResult × List Click × List Event :=
  if eid = "" then (.invalidInput, clicks, events)
  else
    let rec0 : Click :=
      { eventId := eid,
        eventTitle := if eventTitle = "" then eid else eventTitle,
        eventTopic := if eventTopic = "" then "unknown" else eventTopic,
        userId := userId,
        sessionId := if cookieSessionId = "" then "anonymous" else cookieSessionId,
        clickedAt := now }
    (.ok, clicks ++ [rec0], upsertClick events eid)

/-- The JSON user object returned by the register handler.  `isNewActor`
records which branch answered: the 201 "Registration successful!" branch
(new user) versus the 200 "Welcome back!" branch (existing user). -/
structure RegOut where
  id : String
  email : String
  name : String
  savedEvents : List SavedEntry
  visitCount : Int
  isNewActor : Bool
deriving Repr, DecidableEq

/-- Outcome of the register handler. -/
inductive RegResult where
  | invalidInput
  | ok (out : RegOut)
deriving Repr, DecidableEq

/-- Replace the first user with the given email (Mongoose document
mutation followed by `save`). -/
def replaceUser : List User → String → User → List User
  | [], _, _ => []
  | u :: us, email, u' =>
    if u.email == email then u' :: us else u :: replaceUser us email u'

/-- The lowercase-then-trim normalisation `email.toLowerCase().trim()`. -/
def cleanEmail (email : String) : String := jsTrim (jsToLower email)

/-- POST /api/auth/register (src/unnamed/part_003, lines 167-247).
Validation `if (!email || !email.includes('@'))` runs on the raw email;
the normalised email keys the lookup.  An existing user gets lastVisit
refreshed and visitCount incremented; a new user starts at visitCount 1.
`mongoId` stands for the MongoDB-generated `_id` of a fresh document. -/
def register (now : Int) (mongoId : String) (email : String) (users : List User) :
    RegResult × List User :=
  if email = "" || !(jsIncludesAt email) then (.invalidInput, users)
  else
    let ce := cleanEmail email
    match users.find? (fun u => u.email == ce) with
    | some u =>
      let u' : User := { u with lastVisit := now, visitCount := u.visitCount + 1 }
      (.ok { id := u.id, email := u.email,
             name := if u.name = "" then jsLocalPart u.email else u.name,
             savedEvents := u.savedEvents, visitCount := u'.visitCount,
             isNewActor := false },
       replaceUser users ce u')
    | none =>
      let u : User := { id := mongoId, email := ce,
                        name := jsLocalPart ce,
                        savedEvents := [], visitCount := 1,
                        firstVisit := now, lastVisit := now }
      (.ok { id := u.id, email := u.email, name := u.name,
             savedEvents := [], visitCount := 1, isNewActor := true },
       users ++ [u])

/-- JavaScript `sessionId || minted`: the empty string is falsy. -/
def jsOr (s : Option String) (minted : String) : String :=
  match s with
  | some v => if v = "" then minted else v
  | none => minted

/-- POST /api/visits/track (src/unnamed/part_003, lines 526-582).  The
session id is taken from the body or freshly minted; the classification
is `isNewUser: !isReturning`, straight from the caller-supplied hint.
When an actor is resolved its visitCount and lastVisit are refreshed.
Returns the `{ sessionId, isNewUser }` response payload. -/
def trackVisit (now : Int) (mintedId : String) (sessionId : Option String)
    (isReturning : Bool) (userEmail : Option String)
    (visits : List Visit) (users : List User) :
    (String × Bool) × List Visit × List User :=
  let sid := jsOr sessionId mintedId
  let v : Visit := { userId := none, sessionId := sid,
                     isNewUser := !isReturning, isReturning := isReturning,
                     visitedAt := now }
  let users' :=
    match userEmail with
    | none => users
    | some em =>
      match users.find? (fun u => u.email == em) with
      | none => users
      | some u => replaceUser users em
          { u with visitCount := u.visitCount + 1, lastVisit := now }
  ((sid, !isReturning), visits ++ [v], users')

/-- The retention summary returned by `calculateRetention`
(src/unnamed/part_003, lines 771-788). -/
structure Retention where
  d7Retention : Nat
  d30Retention : Nat
  d7Active : Nat
  d30Active : Nat
  totalUsers : Nat
deriving Repr, DecidableEq

/-- The function `calculateRetention` (src/unnamed/part_003, lines 771-788): counts
users whose lastVisit is within 7 and 30 days of now, divides by the
count of all users, and rounds to a whole percentage (0 when there are
no users). -/
def calculateRetention (now : Int) (users : List User) : Retention :=
  let sevenDaysAgo := now - 7 * dayMs
  let thirtyDaysAgo := now - 30 * dayMs
  let d7 := (users.filter (fun u => sevenDaysAgo ≤ u.lastVisit)).length
  let d30 := (users.filter (fun u => thirtyDaysAgo ≤ u.lastVisit)).length
  let total := users.length
  { d7Retention := jsRound100 d7 total,
    d30Retention := jsRound100 d30 total,
    d7Active := d7, d30Active := d30, totalUsers := total }

/-- The mutable server state the part_003 handlers share. -/
structure St where
  users : List User
  events : List Event
  clicks : List Click
  visits : List Visit
deriving Repr, DecidableEq

/-- One inbound mutating request, with the nondeterministic inputs
(timestamps, minted ids) recorded in the operation. -/
inductive Op where
  | reg (now : Int) (mongoId email : String)
  | save (now : Int) (email eid : String)
  | unsave (email eid : String)
  | click (now : Int) (eid title topic sid : String)
  | visit (now : Int) (mintedId : String) (sessionId : Option String)
      (isReturning : Bool) (userEmail : Option String)
deriving Repr

/-- Apply one request to the state (the actor of save/unsave is resolved
by email; an unresolvable actor leaves the state unchanged, as the
handler answers before touching storage). -/
def applyOp (st : St) : Op → St
  | .reg now mongoId email =>
    { st with users := (register now mongoId email st.users).2 }
  | .save now email eid =>
    match st.users.find? (fun u => u.email == email) with
    | none => st
    | some u =>
      let r := saveEvent now u eid st.events
      { st with users := replaceUser st.users email r.2.1, events := r.2.2 }
  | .unsave email eid =>
    match st.users.find? (fun u => u.email == email) with
    | none => st
    | some u =>
      let r := unsaveEvent u eid st.events
      { st with users := replaceUser st.users email r.2.1, events := r.2.2 }
  | .click now eid title topic sid =>
    let r := clickEvent now eid title topic none sid st.clicks st.events
    { st with clicks := r.2.1, events := r.2.2 }
  | .visit now mintedId sessionId isReturning userEmail =>
    let r := trackVisit now mintedId sessionId isReturning userEmail st.visits st.users
    { st with visits := r.2.1, users := r.2.2 }

/-- Run a request sequence from a starting state. -/
def applyOps (st : St) (ops : List Op) : St := ops.foldl applyOp st

/-- All catalog counters are non-negative. -/
def countersNonneg (events : List Event) : Prop :=
  ∀ e ∈ events, 0 ≤ e.savedCount ∧ 0 ≤ e.clickCount

end Part3

namespace Part1

/-- A signed credential, modelled as its payload: `jwt.sign({ userId, email }, secret)`.
`verifyToken` on a minted token recovers exactly this payload (the JWT
round-trip); cryptographic failure cases verify to `none` and are not
needed by the claims. -/
structure Token where
  userId : String
  email : String
deriving Repr, DecidableEq

/-- Models `generateToken(userId, email)` (src/unnamed/part_001, lines 110-122). -/
def generateToken (userId email : String) : Token := ⟨userId, email⟩

/-- Models `verifyToken(token)` (src/unnamed/part_001, lines 124-131) on a
well-formed token: returns the decoded payload. -/
def verifyToken (t : Token) : Option Token := some t

/-- A saved-events entry as stored by the MongoDB path:
`{ eventId, savedAt }` objects. -/
structure MSavedEntry where
  eventId : String
  savedAt : Int
deriving Repr, DecidableEq

/-- A user document in the durable (MongoDB) store. -/
structure MUser where
  id : String
  email : String
  name : String
  savedEvents : List MSavedEntry
  visitCount : Int
  firstVisit : Int
  lastVisit : Int
deriving Repr, DecidableEq

/-- A user record in `memoryStorage.users`; its `savedEvents` holds bare
eventId strings. -/
structure MemUser where
  id : String
  email : String
  name : String
  savedEvents : List String
  visitCount : Int
  firstVisit : Int
  lastVisit : Int
deriving Repr, DecidableEq

/-- The part_001 process state: `durable` is
`mongoose.connection.readyState === 1`. -/
structure St where
  durable : Bool
  mongoUsers : List MUser
  memUsers : List MemUser
deriving Repr, DecidableEq

/-- Minting of `` `user_${Date.now()}_${Math.random().toString(36).substr(2, 9)}` ``. -/
def mintUserId (now : Int) (rand : String) : String :=
  "user_" ++ toString now ++ "_" ++ rand

/-- JavaScript `cleanEmail.split('@')[0]`. -/
def nameOf (ce : String) : String := jsLocalPart ce

/-- Replace the first durable user with the given id. -/
def replaceM : List MUser → String → MUser → List MUser
  | [], _, _ => []
  | u :: us, uid, u' => if u.id == uid then u' :: us else u :: replaceM us uid u'

/-- Replace the first memory user with the given id. -/
def replaceMem : List MemUser → String → MemUser → List MemUser
  | [], _, _ => []
  | u :: us, uid, u' => if u.id == uid then u' :: us else u :: replaceMem us uid u'

/-- The memory lookup used by profile/save/unsave:
`find(u => u.id === decoded.userId || u.email === decoded.email)`. -/
def memFind (st : St) (t : Token) : Option MemUser :=
  st.memUsers.find? (fun u => u.id == t.userId || u.email == t.email)

/-- The response payload of the register handler ( the `savedEvents`
field of the response is not read by any claim and is omitted). -/
structure RegOk where
  id : String
  email : String
  name : String
  visitCount : Int
  token : Token
deriving Repr, DecidableEq

/-- Outcome of the part_001 register handler. -/
inductive RegResult1 where
  | invalidInput
  | ok (r : RegOk)
deriving Repr, DecidableEq

/-- The `user.id` of a successful response. -/
def RegResult1.respId : RegResult1 → Option String
  | .invalidInput => none
  | .ok r => some r.id

/-- The userId carried inside the token of a successful response. -/
def RegResult1.tokenUserId : RegResult1 → Option String
  | .invalidInput => none
  | .ok r => some r.token.userId

/-- POST /api/auth/register (src/unnamed/part_001, lines 147-265).  The
fresh `userId` is minted before any lookup.  On the durable path the
token is signed with `user._id.toString()`; on the memory path it is
signed with the pre-minted `userId` in both branches — including the
existing-user branch, where the response id is the stored `user.id`.
`mongoId` stands for the MongoDB-generated `_id` of a fresh document. -/
def register (now : Int) (rand : String) (mongoId : String) (email : String)
    (st : St) : RegResult1 × St :=
  if email = "" || !(jsIncludesAt email) then (.invalidInput, st)
  else
    let ce := jsTrim (jsToLower email)
    let userId := mintUserId now rand
    if st.durable then
      match st.mongoUsers.find? (fun u => u.email == ce) with
      | some u =>
        let u' : MUser := { u with lastVisit := now, visitCount := u.visitCount + 1 }
        (.ok { id := u.id, email := u.email, name := u.name,
               visitCount := u'.visitCount, token := generateToken u.id ce },
         { st with mongoUsers := replaceM st.mongoUsers u.id u' })
      | none =>
        let u : MUser := { id := mongoId, email := ce, name := nameOf ce,
                           savedEvents := [], visitCount := 1,
                           firstVisit := now, lastVisit := now }
        (.ok { id := u.id, email := u.email, name := u.name,
               visitCount := 1, token := generateToken u.id ce },
         { st with mongoUsers := st.mongoUsers ++ [u] })
    else
      match st.memUsers.find? (fun u => u.email == ce) with
      | some u =>
        let u' : MemUser := { u with lastVisit := now, visitCount := u.visitCount + 1 }
        (.ok { id := u.id, email := u.email, name := u.name,
               visitCount := u'.visitCount, token := generateToken userId ce },
         { st with memUsers := replaceMem st.memUsers u.id u' })
      | none =>
        let u : MemUser := { id := userId, email := ce, name := nameOf ce,
                             savedEvents := [], visitCount := 1,
                             firstVisit := now, lastVisit := now }
        (.ok { id := u.id, email := u.email, name := u.name,
               visitCount := 1, token := generateToken userId ce },
         { st with memUsers := st.memUsers ++ [u] })

/-- Outcome of GET /api/auth/profile. -/
inductive ProfileResult where
  | noToken
  | notFound
  | ok (id email : String) (visitCount : Int)
deriving Repr, DecidableEq

/-- GET /api/auth/profile (src/unnamed/part_001, lines 268-320): durable
lookup by the decoded userId only while the backend is reachable, then
the memory lookup by id or email, then 404. -/
def profile (tok : Option Token) (st : St) : ProfileResult :=
  match tok with
  | none => .noToken
  | some t =>
    match verifyToken t with
    | none => .noToken
    | some d =>
      match (if st.durable then st.mongoUsers.find? (fun u => u.id == d.userId) else none) with
      | some u => .ok u.id u.email u.visitCount
      | none =>
        match memFind st d with
        | some u => .ok u.id u.email u.visitCount
        | none => .notFound

/-- The durable-path saved-set update: push `{ eventId, savedAt }` unless
an entry with that eventId exists. -/
def mongoSaveList (now : Int) (eid : String) (l : List MSavedEntry) : List MSavedEntry :=
  if l.any (fun e => e.eventId == eid) then l else l ++ [⟨eid, now⟩]

/-- The memory-path saved-set update: push the bare eventId unless
`savedEvents.includes(eventId)`. -/
def memSaveList (eid : String) (l : List String) : List String :=
  if l.any (fun s => s == eid) then l else l ++ [eid]

/-- The durable-path unsave update: `filter(e => e.eventId !== eventId)`. -/
def mongoUnsaveList (eid : String) (l : List MSavedEntry) : List MSavedEntry :=
  l.filter (fun e => e.eventId != eid)

/-- The memory-path unsave update: `filter(e => e !== eventId)`. -/
def memUnsaveList (eid : String) (l : List String) : List String :=
  l.filter (fun s => s != eid)

/-- Outcome of the part_001 save/unsave handlers.  The two success shapes
differ: the durable path answers with `{ eventId, savedAt }` objects, the
memory path with bare strings. -/
inductive SaveResult1 where
  | invalidInput
  | unauthenticated
  | userNotFound
  | okMongo (savedEvents : List MSavedEntry)
  | okMem (savedEvents : List String)
deriving Repr, DecidableEq

/-- POST /api/events/save (src/unnamed/part_001, lines 397-472).  No
catalog check on either path. -/
def save (now : Int) (tok : Option Token) (eid : String) (st : St) :
    SaveResult1 × St :=
  if eid = "" then (.invalidInput, st)
  else
    match tok with
    | none => (.unauthenticated, st)
    | some t =>
      match verifyToken t with
      | none => (.unauthenticated, st)
      | some d =>
        if st.durable then
          match st.mongoUsers.find? (fun u => u.id == d.userId) with
          | none => (.userNotFound, st)
          | some u =>
            let u' : MUser := { u with savedEvents := mongoSaveList now eid u.savedEvents }
            (.okMongo u'.savedEvents,
             { st with mongoUsers := replaceM st.mongoUsers u.id u' })
        else
          match memFind st d with
          | none => (.userNotFound, st)
          | some u =>
            let u' : MemUser := { u with savedEvents := memSaveList eid u.savedEvents }
            (.okMem u'.savedEvents,
             { st with memUsers := replaceMem st.memUsers u.id u' })

/-- POST /api/events/unsave (src/unnamed/part_001, lines 475-519). -/
def unsave (tok : Option Token) (eid : String) (st : St) :
    SaveResult1 × St :=
  if eid = "" then (.invalidInput, st)
  else
    match tok with
    | none => (.unauthenticated, st)
    | some t =>
      match verifyToken t with
      | none => (.unauthenticated, st)
      | some d =>
        if st.durable then
          match st.mongoUsers.find? (fun u => u.id == d.userId) with
          | none => (.userNotFound, st)
          | some u =>
            let u' : MUser := { u with savedEvents := mongoUnsaveList eid u.savedEvents }
            (.okMongo u'.savedEvents,
             { st with mongoUsers := replaceM st.mongoUsers u.id u' })
        else
          match memFind st d with
          | none => (.userNotFound, st)
          | some u =>
            let u' : MemUser := { u with savedEvents := memUnsaveList eid u.savedEvents }
            (.okMem u'.savedEvents,
             { st with memUsers := replaceMem st.memUsers u.id u' })

/-- A JSON value of the save/unsave response `savedEvents` array: either
a bare string or an `{ eventId, savedAt }` object. -/
inductive JVal where
  | str (s : String)
  | entry (eventId : String) (savedAt : Int)
deriving Repr, DecidableEq

/-- Caller-visible encoding of a durable-path savedEvents array. -/
def encodeMongoSaved (l : List MSavedEntry) : List JVal :=
  l.map (fun e => .entry e.eventId e.savedAt)

/-- Caller-visible encoding of a memory-path savedEvents array. -/
def encodeMemSaved (l : List String) : List JVal := l.map .str

/-- Caller-visible encoding of a save/unsave response. -/
def encodeResult : SaveResult1 → Option (List JVal)
  | .okMongo l => some (encodeMongoSaved l)
  | .okMem l => some (encodeMemSaved l)
  | _ => none

/-- One engagement request against a single actor saved set. -/
inductive EngOp where
  | save (now : Int) (eid : String)
  | unsave (eid : String)
deriving Repr

/-- Run a sequence of engagement requests on the durable-path saved set. -/
def runMongo (ops : List EngOp) (l : List MSavedEntry) : List MSavedEntry :=
  ops.foldl (fun acc op =>
    match op with
    | .save now eid => mongoSaveList now eid acc
    | .unsave eid => mongoUnsaveList eid acc) l

/-- Run a sequence of engagement requests on the memory-path saved set. -/
def runMem (ops : List EngOp) (l : List String) : List String :=
  ops.foldl (fun acc op =>
    match op with
    | .save _ eid => memSaveList eid acc
    | .unsave eid => memUnsaveList eid acc) l

end Part1

namespace ServerJs

/-- An entry of `data.userSessions` (src/server.js, second copy). -/
structure Session where
  firstVisit : Int
  visits : Int
  lastVisit : Option Int
deriving Repr, DecidableEq

/-- The record `data.visitStats`. -/
structure VisitStats where
  firstVisits : Int
  returnVisits : Int
  totalVisits : Int
  uniqueUsers : Int
deriving Repr, DecidableEq

/-- The visit-tracking state of the file store. -/
structure St where
  sessions : List (String × Session)
  stats : VisitStats
deriving Repr, DecidableEq

/-- Lookup of `data.userSessions[id]`. -/
def lookup (l : List (String × Session)) (k : String) : Option Session :=
  (l.find? (fun p => p.fst == k)).map Prod.snd

/-- Assignment `data.userSessions[id] = s` on an existing key. -/
def setSession : List (String × Session) → String → Session → List (String × Session)
  | [], _, _ => []
  | p :: ps, k, s => if p.fst == k then (k, s) :: ps else p :: setSession ps k s

/-- POST /api/visits (src/server.js, lines 566-640).  A visit is counted
as first only when the caller-supplied `isNewUser` hint is set AND the
(possibly minted) userId has not been seen; otherwise the session record
is created or refreshed and the visit is counted as returning. -/
def trackVisit (now : Int) (mintedId : String) (userId : Option String)
    (isNewUser : Bool) (st : St) : (String × Bool) × St :=
  let uid := match userId with
    | some u => if u = "" then mintedId else u
    | none => mintedId
  let (sessions1, isFirstVisit) :=
    if isNewUser && (lookup st.sessions uid).isNone then
      (st.sessions ++ [(uid, { firstVisit := now, visits := 0, lastVisit := none })], true)
    else (st.sessions, false)
  let (sessions2, uniq2) :=
    match lookup sessions1 uid with
    | some s =>
      (setSession sessions1 uid
        { s with visits := s.visits + 1, lastVisit := some now },
       if isFirstVisit then (sessions1.length : Int) else st.stats.uniqueUsers)
    | none =>
      let grown := sessions1 ++ [(uid, { firstVisit := now, visits := 1, lastVisit := some now })]
      (grown, (grown.length : Int))
  let stats' : VisitStats :=
    { firstVisits := st.stats.firstVisits + (if isFirstVisit then 1 else 0),
      returnVisits := st.stats.returnVisits + (if isFirstVisit then 0 else 1),
      totalVisits := st.stats.totalVisits + 1,
      uniqueUsers := uniq2 }
  ((uid, isFirstVisit), { sessions := sessions2, stats := stats' })

/-- One cohort row of the retention report, keyed by the epoch day of
`firstVisit`. -/
structure Cohort where
  day : Int
  totalUsers : Nat
  returnedDay1 : Nat
  returnedDay7 : Nat
  returnedDay30 : Nat
deriving Repr, DecidableEq

/-- JavaScript `Math.floor((now - firstVisit) / day)` for the non-negative case. -/
def daysSinceFirst (now firstVisit : Int) : Int := (now - firstVisit) / dayMs

/-- Fold one user into the cohort table (GET /api/analytics/retention,
src/server.js, lines 669-691): the totalUsers of the matching day row
always grows, while the returned counters grow only when the user both
returned (visits > 1) and is at least the horizon old. -/
def addToCohorts (now : Int) (cs : List Cohort) (s : Session) : List Cohort :=
  let d := s.firstVisit / dayMs
  let days := daysSinceFirst now s.firstVisit
  let returnedLater := decide (1 < s.visits)
  let bump := fun (c : Cohort) =>
    { c with totalUsers := c.totalUsers + 1,
             returnedDay1 := c.returnedDay1 + (if returnedLater && decide (1 ≤ days) then 1 else 0),
             returnedDay7 := c.returnedDay7 + (if returnedLater && decide (7 ≤ days) then 1 else 0),
             returnedDay30 := c.returnedDay30 + (if returnedLater && decide (30 ≤ days) then 1 else 0) }
  match cs.find? (fun c => c.day == d) with
  | some _ =>
    cs.map (fun c => if c.day == d then bump c else c)
  | none =>
    cs ++ [bump { day := d, totalUsers := 0, returnedDay1 := 0,
                  returnedDay7 := 0, returnedDay30 := 0 }]

/-- The full cohort table of the retention report. -/
def cohortsOf (now : Int) (users : List Session) : List Cohort :=
  users.foldl (addToCohorts now) []

/-- Daily active count: `user.lastVisit && new Date(user.lastVisit) > oneDayAgo`. -/
def dailyActive (now : Int) (users : List Session) : Nat :=
  (users.filter (fun u =>
    match u.lastVisit with
    | some t => now - dayMs < t
    | none => false)).length

end ServerJs

namespace Part2

/-- Outcome of the part_002 click endpoint. -/
inductive ClickResult where
  | invalidInput
  | ok
deriving Repr, DecidableEq

/-- POST /api/events/click (src/unnamed/part_002, lines 476-502): the
acknowledgement-only variant of this endpoint.  It validates the eventId
and answers ok; nothing is recorded — this server variant keeps no click
log and no catalog counters. -/
def clickEvent (eid : String) : ClickResult :=
  if eid = "" then .invalidInput else .ok

end Part2

/-! ## Helper lemmas -/

/-- Updating the first catalog entry matching `eid` with an
eventId-preserving function rewrites the result of a subsequent lookup of
`eid` by that function. -/
theorem Part3.updateEvent_find?_eq (es : List Part3.Event) (eid : String)
    (f : Part3.Event → Part3.Event) (hf : ∀ e, (f e).eventId = e.eventId) :
    (Part3.updateEvent es eid f).find? (fun e => e.eventId == eid)
      = (es.find? (fun e => e.eventId == eid)).map f := by
  induction es with
  | nil => simp [Part3.updateEvent]
  | cons e es ih =>
    by_cases h : e.eventId == eid
    · have hfe : ((f e).eventId == eid) = true := by
        rw [hf e]; exact h
      simp [Part3.updateEvent, h, hfe]
    · simp [Part3.updateEvent, h, List.find?_cons, ih]

/-- A lookup after the unsave decrement yields the old savedCount clamped
downward, provided the old count was not already negative. -/
theorem Part3.savedCountOf_unsaveDec (es : List Part3.Event) (eid : String)
    (h : 0 ≤ Part3.savedCountOf es eid) :
    Part3.savedCountOf (Part3.unsaveDec es eid) eid
      = max (Part3.savedCountOf es eid - 1) 0 := by
  induction es with
  | nil => simp [Part3.unsaveDec, Part3.savedCountOf]
  | cons e es ih =>
    by_cases he : e.eventId == eid
    · by_cases hc : 0 < e.savedCount
      · have h0 : Part3.savedCountOf (e :: es) eid = e.savedCount := by
          simp [Part3.savedCountOf, List.find?_cons, he]
        simp only [Part3.unsaveDec, he, if_pos hc, if_true]
        simp [Part3.savedCountOf, List.find?_cons, he, h0]
        omega
      · have h0 : Part3.savedCountOf (e :: es) eid = e.savedCount := by
          simp [Part3.savedCountOf, List.find?_cons, he]
        rw [h0] at h
        simp only [Part3.unsaveDec, he, if_neg hc, if_true]
        simp [Part3.savedCountOf, List.find?_cons, he, h0]
        omega
    · have h0 : Part3.savedCountOf (e :: es) eid = Part3.savedCountOf es eid := by
        simp [Part3.savedCountOf, List.find?_cons, he]
      rw [h0] at h ⊢
      simp only [Part3.unsaveDec, he, if_false]
      have h1 : Part3.savedCountOf (e :: Part3.unsaveDec es eid) eid
          = Part3.savedCountOf (Part3.unsaveDec es eid) eid := by
        simp [Part3.savedCountOf, List.find?_cons, he]
      simp [he, h1, ih h]

/-! ## C1 -/

/-- C1.  saveEvent is idempotent.  In the part_003 variant: starting from
a state where the event is in the catalog and the actor has not saved it
yet, the first call adds exactly one saved-set entry for that eventId and
increments the event savedCount by one, and the second call returns the
same response and leaves user and catalog untouched.  In the part_001
memory path (a bare-string saved set, no catalog counter exists there):
the double update equals the single update, which holds exactly one entry
for the eventId. -/
theorem c1_saveEvent_idempotent (now now' : Int) (u : Part3.User) (eid : String)
    (events : List Part3.Event)
    (hne : eid ≠ "")
    (hcat : (events.find? (fun e => e.eventId == eid)).isSome = true)
    (hfresh : u.savedEvents.any (fun s => s.eventId == eid) = false)
    (l : List String) (hl : l.any (fun s => s == eid) = false) :
    (Part3.saveEvent now' (Part3.saveEvent now u eid events).2.1 eid
        (Part3.saveEvent now u eid events).2.2
      = (.ok (Part3.saveEvent now u eid events).2.1.savedEvents,
         (Part3.saveEvent now u eid events).2.1,
         (Part3.saveEvent now u eid events).2.2))
    ∧ ((Part3.saveEvent now u eid events).2.1.savedEvents.countP
        (fun s => s.eventId == eid) = 1)
    ∧ (Part3.savedCountOf (Part3.saveEvent now u eid events).2.2 eid
        = Part3.savedCountOf events eid + 1)
    ∧ (Part1.memSaveList eid (Part1.memSaveList eid l) = Part1.memSaveList eid l)
    ∧ ((Part1.memSaveList eid l).countP (fun s => s == eid) = 1) := by
  obtain ⟨e0, he0⟩ := Option.isSome_iff_exists.mp hcat
  have hstep : Part3.saveEvent now u eid events
      = (.ok (u.savedEvents ++ [⟨eid, now⟩]),
         { u with savedEvents := u.savedEvents ++ [⟨eid, now⟩] },
         Part3.updateEvent events eid
           (fun e => { e with savedCount := e.savedCount + 1 })) := by
    simp [Part3.saveEvent, hne, he0, hfresh]
  have hfind2 : (Part3.updateEvent events eid
        (fun e => { e with savedCount := e.savedCount + 1 })).find?
        (fun e => e.eventId == eid)
      = some { e0 with savedCount := e0.savedCount + 1 } := by
    rw [Part3.updateEvent_find?_eq events eid
      (fun e => { e with savedCount := e.savedCount + 1 }) (fun e => rfl), he0]
    rfl
  have hcount0 : u.savedEvents.countP (fun s => s.eventId == eid) = 0 :=
    List.countP_eq_zero.mpr (by
      intro a ha
      exact (List.any_eq_false.mp hfresh) a ha)
  have hmem0 : l.countP (fun s => s == eid) = 0 :=
    List.countP_eq_zero.mpr (by
      intro a ha
      exact (List.any_eq_false.mp hl) a ha)
  refine ⟨?_, ?_, ?_, ?_, ?_⟩
  · rw [hstep]
    simp [Part3.saveEvent, hne, hfind2]
  · rw [hstep]
    simp [List.countP_append, hcount0, List.countP_cons]
  · rw [hstep]
    simp [Part3.savedCountOf, hfind2, he0]
  · have h1 : Part1.memSaveList eid l = l ++ [eid] := by
      simp [Part1.memSaveList, hl]
    rw [h1]
    simp [Part1.memSaveList]
  · have h1 : Part1.memSaveList eid l = l ++ [eid] := by
      simp [Part1.memSaveList, hl]
    rw [h1]
    simp [List.countP_append, hmem0, List.countP_cons]

/-- C1 witness: a concrete catalog with one event, an actor who has not
saved it, and an empty memory saved set. -/
theorem c1_saveEvent_idempotent_witness :
    (Part3.saveEvent 20 (Part3.saveEvent 10 ⟨"id1", "a@x.com", "a", [], 1, 0, 0⟩
        "event-1" [⟨"event-1", "t", "d", 0, 0⟩]).2.1 "event-1"
        (Part3.saveEvent 10 ⟨"id1", "a@x.com", "a", [], 1, 0, 0⟩
          "event-1" [⟨"event-1", "t", "d", 0, 0⟩]).2.2
      = (.ok (Part3.saveEvent 10 ⟨"id1", "a@x.com", "a", [], 1, 0, 0⟩
            "event-1" [⟨"event-1", "t", "d", 0, 0⟩]).2.1.savedEvents,
         (Part3.saveEvent 10 ⟨"id1", "a@x.com", "a", [], 1, 0, 0⟩
           "event-1" [⟨"event-1", "t", "d", 0, 0⟩]).2.1,
         (Part3.saveEvent 10 ⟨"id1", "a@x.com", "a", [], 1, 0, 0⟩
           "event-1" [⟨"event-1", "t", "d", 0, 0⟩]).2.2))
    ∧ ((Part3.saveEvent 10 ⟨"id1", "a@x.com", "a", [], 1, 0, 0⟩
        "event-1" [⟨"event-1", "t", "d", 0, 0⟩]).2.1.savedEvents.countP
        (fun s => s.eventId == "event-1") = 1)
    ∧ (Part3.savedCountOf (Part3.saveEvent 10 ⟨"id1", "a@x.com", "a", [], 1, 0, 0⟩
        "event-1" [⟨"event-1", "t", "d", 0, 0⟩]).2.2 "event-1"
        = Part3.savedCountOf [⟨"event-1", "t", "d", 0, 0⟩] "event-1" + 1)
    ∧ (Part1.memSaveList "event-1" (Part1.memSaveList "event-1" [])
        = Part1.memSaveList "event-1" [])
    ∧ ((Part1.memSaveList "event-1" []).countP (fun s => s == "event-1") = 1) :=
  c1_saveEvent_idempotent 10 20 ⟨"id1", "a@x.com", "a", [], 1, 0, 0⟩ "event-1"
    [⟨"event-1", "t", "d", 0, 0⟩] (by decide) (by decide) (by decide) [] (by decide)

/-! ## C2 -/

/-- Incrementing the savedCount of the first match keeps all counters
non-negative. -/
theorem Part3.countersNonneg_updateEvent_inc (es : List Part3.Event) (eid : String)
    (h : Part3.countersNonneg es) :
    Part3.countersNonneg (Part3.updateEvent es eid
      (fun e => { e with savedCount := e.savedCount + 1 })) := by
  induction es with
  | nil => simpa [Part3.updateEvent] using h
  | cons e es ih =>
    obtain ⟨he1, he2⟩ := h e (by simp)
    have hes : Part3.countersNonneg es := fun x hx => h x (by simp [hx])
    by_cases hm : e.eventId == eid
    · intro x hx
      simp [Part3.updateEvent, hm] at hx
      rcases hx with rfl | hx
      · exact ⟨by simp; omega, by simpa using he2⟩
      · exact hes x hx
    · intro x hx
      simp [Part3.updateEvent, hm] at hx
      rcases hx with rfl | hx
      · exact ⟨he1, he2⟩
      · exact ih hes x hx

/-- The guarded unsave decrement keeps all counters non-negative. -/
theorem Part3.countersNonneg_unsaveDec (es : List Part3.Event) (eid : String)
    (h : Part3.countersNonneg es) :
    Part3.countersNonneg (Part3.unsaveDec es eid) := by
  induction es with
  | nil => simpa [Part3.unsaveDec] using h
  | cons e es ih =>
    obtain ⟨he1, he2⟩ := h e (by simp)
    have hes : Part3.countersNonneg es := fun x hx => h x (by simp [hx])
    by_cases hm : e.eventId == eid
    · by_cases hc : 0 < e.savedCount
      · intro x hx
        simp [Part3.unsaveDec, hm, hc] at hx
        rcases hx with rfl | hx
        · exact ⟨by simp; omega, by simpa using he2⟩
        · exact hes x hx
      · intro x hx
        simp [Part3.unsaveDec, hm, hc] at hx
        rcases hx with rfl | hx
        · exact ⟨he1, he2⟩
        · exact hes x hx
    · intro x hx
      simp [Part3.unsaveDec, hm] at hx
      rcases hx with rfl | hx
      · exact ⟨he1, he2⟩
      · exact ih hes x hx

/-- The click upsert keeps all counters non-negative. -/
theorem Part3.countersNonneg_upsertClick (es : List Part3.Event) (eid : String)
    (h : Part3.countersNonneg es) :
    Part3.countersNonneg (Part3.upsertClick es eid) := by
  induction es with
  | nil =>
    intro x hx
    simp [Part3.upsertClick] at hx
    subst hx
    exact ⟨by simp, by simp⟩
  | cons e es ih =>
    obtain ⟨he1, he2⟩ := h e (by simp)
    have hes : Part3.countersNonneg es := fun x hx => h x (by simp [hx])
    by_cases hm : e.eventId == eid
    · intro x hx
      simp [Part3.upsertClick, hm] at hx
      rcases hx with rfl | hx
      · exact ⟨by simpa using he1, by simp; omega⟩
      · exact hes x hx
    · intro x hx
      simp [Part3.upsertClick, hm] at hx
      rcases hx with rfl | hx
      · exact ⟨he1, he2⟩
      · exact ih hes x hx

/-- saveEvent keeps all counters non-negative. -/
theorem Part3.countersNonneg_saveEvent (now : Int) (u : Part3.User) (eid : String)
    (es : List Part3.Event) (h : Part3.countersNonneg es) :
    Part3.countersNonneg (Part3.saveEvent now u eid es).2.2 := by
  by_cases hne : eid = ""
  · simpa [Part3.saveEvent, hne] using h
  · cases hf : es.find? (fun e => e.eventId == eid) with
    | none => simpa [Part3.saveEvent, hne, hf] using h
    | some e0 =>
      by_cases ha : u.savedEvents.any (fun s => s.eventId == eid)
      · simpa [Part3.saveEvent, hne, hf, ha] using h
      · simpa [Part3.saveEvent, hne, hf, ha] using
          Part3.countersNonneg_updateEvent_inc es eid h

/-- unsaveEvent keeps all counters non-negative. -/
theorem Part3.countersNonneg_unsaveEvent (u : Part3.User) (eid : String)
    (es : List Part3.Event) (h : Part3.countersNonneg es) :
    Part3.countersNonneg (Part3.unsaveEvent u eid es).2.2 := by
  by_cases hne : eid = ""
  · simpa [Part3.unsaveEvent, hne] using h
  · simpa [Part3.unsaveEvent, hne] using Part3.countersNonneg_unsaveDec es eid h

/-- clickEvent keeps all counters non-negative. -/
theorem Part3.countersNonneg_clickEvent (now : Int) (eid title topic : String)
    (userId : Option String) (sid : String) (clicks : List Part3.Click)
    (es : List Part3.Event) (h : Part3.countersNonneg es) :
    Part3.countersNonneg (Part3.clickEvent now eid title topic userId sid clicks es).2.2 := by
  by_cases hne : eid = ""
  · simpa [Part3.clickEvent, hne] using h
  · simpa [Part3.clickEvent, hne] using Part3.countersNonneg_upsertClick es eid h

/-- One request keeps all counters non-negative. -/
theorem Part3.countersNonneg_applyOp (st : Part3.St) (op : Part3.Op)
    (h : Part3.countersNonneg st.events) :
    Part3.countersNonneg (Part3.applyOp st op).events := by
  cases op with
  | reg now mongoId email => simpa [Part3.applyOp] using h
  | save now email eid =>
    cases hf : st.users.find? (fun u => u.email == email) with
    | none => simpa [Part3.applyOp, hf] using h
    | some u =>
      simpa [Part3.applyOp, hf] using
        Part3.countersNonneg_saveEvent now u eid st.events h
  | unsave email eid =>
    cases hf : st.users.find? (fun u => u.email == email) with
    | none => simpa [Part3.applyOp, hf] using h
    | some u =>
      simpa [Part3.applyOp, hf] using
        Part3.countersNonneg_unsaveEvent u eid st.events h
  | click now eid title topic sid =>
    simpa [Part3.applyOp] using
      Part3.countersNonneg_clickEvent now eid title topic none sid st.clicks st.events h
  | visit now mintedId sessionId isReturning userEmail =>
    simpa [Part3.applyOp] using h

/-- Any request sequence keeps all counters non-negative. -/
theorem Part3.countersNonneg_applyOps (st : Part3.St) (ops : List Part3.Op)
    (h : Part3.countersNonneg st.events) :
    Part3.countersNonneg (Part3.applyOps st ops).events := by
  induction ops generalizing st with
  | nil => simpa [Part3.applyOps] using h
  | cons op ops ih =>
    have h1 := Part3.countersNonneg_applyOp st op h
    simpa [Part3.applyOps, List.foldl_cons] using ih (Part3.applyOp st op) h1

/-- C2 counterexample.  The claim says unsaveEvent is a no-op when the
actor has no saved-set entry for the eventId.  In the code the decrement
is guarded only by `event.savedCount > 0`, not by the entry having been
present: with an actor holding no entry for event-1 and a catalog entry
with savedCount 1 (for example saved by a different actor), the call
still decrements savedCount to 0 — not a no-op. -/
theorem c2_unsave_counterexample :
    ¬ (∀ (u : Part3.User) (eid : String) (events : List Part3.Event),
        u.savedEvents.any (fun s => s.eventId == eid) = false →
        Part3.unsaveEvent u eid events = (.ok u.savedEvents, u, events)) := by
  intro h
  exact absurd
    (h ⟨"id1", "a@x.com", "a", [], 1, 0, 0⟩ "event-1" [⟨"event-1", "t", "d", 1, 0⟩]
      (by decide))
    (by decide)

/-- C2 (amended).  unsaveEvent removes every saved-set entry for the
eventId and its result is the filtered set; the catalog savedCount is
decremented clamped at zero whenever it was non-negative — even when the
actor had no entry, so the absent case is a no-op only on the saved set,
not on the counter; and over every request sequence from a state with
non-negative counters, savedCount (and clickCount) never become
negative. -/
theorem c2_unsave_clamped (u : Part3.User) (eid : String)
    (events : List Part3.Event) (hne : eid ≠ "")
    (hnn : 0 ≤ Part3.savedCountOf events eid)
    (ops : List Part3.Op) (st : Part3.St) (hst : Part3.countersNonneg st.events) :
    ((Part3.unsaveEvent u eid events).2.1.savedEvents
        = u.savedEvents.filter (fun s => s.eventId != eid))
    ∧ ((Part3.unsaveEvent u eid events).2.1.savedEvents.countP
        (fun s => s.eventId == eid) = 0)
    ∧ (Part3.savedCountOf (Part3.unsaveEvent u eid events).2.2 eid
        = max (Part3.savedCountOf events eid - 1) 0)
    ∧ Part3.countersNonneg (Part3.applyOps st ops).events := by
  refine ⟨by simp [Part3.unsaveEvent, hne], ?_, ?_, Part3.countersNonneg_applyOps st ops hst⟩
  · simp only [Part3.unsaveEvent, hne, if_neg hne]
    refine List.countP_eq_zero.mpr ?_
    intro a ha
    have := (List.mem_filter.mp ha).2
    simp at this
    simp [this]
  · simpa [Part3.unsaveEvent, hne] using Part3.savedCountOf_unsaveDec events eid hnn

/-- C2 witness: an actor with a saved entry for event-1, a catalog with
savedCount 1, and the request sequence save, unsave, unsave. -/
theorem c2_unsave_clamped_witness :
    ((Part3.unsaveEvent ⟨"id1", "a@x.com", "a", [⟨"event-1", 3⟩], 1, 0, 0⟩ "event-1"
        [⟨"event-1", "t", "d", 1, 0⟩]).2.1.savedEvents
      = [⟨"event-1", (3 : Int)⟩].filter (fun s => s.eventId != "event-1"))
    ∧ ((Part3.unsaveEvent ⟨"id1", "a@x.com", "a", [⟨"event-1", 3⟩], 1, 0, 0⟩ "event-1"
        [⟨"event-1", "t", "d", 1, 0⟩]).2.1.savedEvents.countP
        (fun s => s.eventId == "event-1") = 0)
    ∧ (Part3.savedCountOf (Part3.unsaveEvent
        ⟨"id1", "a@x.com", "a", [⟨"event-1", 3⟩], 1, 0, 0⟩ "event-1"
        [⟨"event-1", "t", "d", 1, 0⟩]).2.2 "event-1"
      = max (Part3.savedCountOf [⟨"event-1", "t", "d", 1, 0⟩] "event-1" - 1) 0)
    ∧ Part3.countersNonneg (Part3.applyOps
        ⟨[⟨"id1", "a@x.com", "a", [], 1, 0, 0⟩], [⟨"event-1", "t", "d", 0, 0⟩], [], []⟩
        [.save 1 "a@x.com" "event-1", .unsave "a@x.com" "event-1",
         .unsave "a@x.com" "event-1"]).events :=
  c2_unsave_clamped ⟨"id1", "a@x.com", "a", [⟨"event-1", 3⟩], 1, 0, 0⟩ "event-1"
    [⟨"event-1", "t", "d", 1, 0⟩] (by decide) (by decide)
    [.save 1 "a@x.com" "event-1", .unsave "a@x.com" "event-1",
     .unsave "a@x.com" "event-1"]
    ⟨[⟨"id1", "a@x.com", "a", [], 1, 0, 0⟩], [⟨"event-1", "t", "d", 0, 0⟩], [], []⟩
    (by unfold Part3.countersNonneg; decide)

/-! ## C3 -/

/-- C3.  The code classifies a session by the caller-supplied hint, not by
server-observed history.  part_003 stores `isNewUser: !isReturning`, so
two pings with the same sessionId and `isReturning=false` both record
isNewSession=true (two records, both flagged new — the claim demands one
true and one false).  The server.js variant likewise consults the hint:
the very first ping for a fresh userId with the hint unset is classified
as a return visit, not a new one. -/
theorem c3_visit_hint_trusted :
    ((Part3.trackVisit 2 "m2" (some "s1") false none
        (Part3.trackVisit 1 "m1" (some "s1") false none [] []).2.1
        (Part3.trackVisit 1 "m1" (some "s1") false none [] []).2.2).2.1.map
        (fun v => (v.sessionId, v.isNewUser))
      = [("s1", true), ("s1", true)])
    ∧ ((Part3.trackVisit 2 "m2" (some "s1") false none
        (Part3.trackVisit 1 "m1" (some "s1") false none [] []).2.1
        (Part3.trackVisit 1 "m1" (some "s1") false none [] []).2.2).2.1.length = 2)
    ∧ ((ServerJs.trackVisit 5 "m" (some "u1") false ⟨[], ⟨0, 0, 0, 0⟩⟩).1.2 = false) := by
  decide

/-! ## C4 -/

/-- Looking up the clicked eventId after the upsert yields the old entry
with clickCount incremented, or the freshly inserted minimal entry. -/
theorem Part3.upsertClick_find?_eq (es : List Part3.Event) (eid : String) :
    (Part3.upsertClick es eid).find? (fun e => e.eventId == eid)
      = some (match es.find? (fun e => e.eventId == eid) with
              | some e => { e with clickCount := e.clickCount + 1 }
              | none => ⟨eid, "", "", 0, 1⟩) := by
  induction es with
  | nil => simp [Part3.upsertClick]
  | cons e es ih =>
    by_cases hm : e.eventId == eid
    · simp [Part3.upsertClick, hm, List.find?_cons]
    · simp [Part3.upsertClick, hm, List.find?_cons, ih]

/-- C4.  recordClick (part_003) fails exactly on the empty eventId, with
the click log and catalog untouched; on any non-empty eventId it succeeds,
appends exactly one audit record for that eventId, increments the catalog
clickCount by one, and — when the eventId was unknown — the catalog now
holds a minimal self-healed entry with clickCount 1 and savedCount 0.
The part_002 acknowledgement-only variant shares the validation clause:
InvalidInput exactly on the empty eventId. -/
theorem c4_click_self_heals (now : Int) (eid title topic sid : String)
    (userId : Option String)
    (clicks : List Part3.Click) (events : List Part3.Event)
    (hne : eid ≠ "") :
    (Part3.clickEvent now "" title topic userId sid clicks events
      = (.invalidInput, clicks, events))
    ∧ (Part3.clickEvent now eid title topic userId sid clicks events).1 = .ok
    ∧ ((Part3.clickEvent now eid title topic userId sid clicks events).2.1
      = clicks ++ [⟨eid, if title = "" then eid else title,
                    if topic = "" then "unknown" else topic, userId,
                    if sid = "" then "anonymous" else sid, now⟩])
    ∧ (Part3.clickCountOf (Part3.clickEvent now eid title topic userId sid clicks events).2.2 eid
      = Part3.clickCountOf events eid + 1)
    ∧ (events.find? (fun e => e.eventId == eid) = none →
        (Part3.clickEvent now eid title topic userId sid clicks events).2.2.find?
            (fun e => e.eventId == eid)
          = some ⟨eid, "", "", 0, 1⟩)
    ∧ (Part2.clickEvent "" = .invalidInput ∧ Part2.clickEvent eid = .ok) := by
  refine ⟨by simp [Part3.clickEvent], ?_, ?_, ?_, ?_, ?_⟩
  · simp [Part3.clickEvent, hne]
  · simp [Part3.clickEvent, hne]
  · simp only [Part3.clickEvent, if_neg hne]
    simp only [Part3.clickCountOf, Part3.upsertClick_find?_eq]
    cases hf : events.find? (fun e => e.eventId == eid) <;> simp [hf]
  · intro habs
    simp only [Part3.clickEvent, if_neg hne]
    simp [Part3.upsertClick_find?_eq, habs]
  · exact ⟨rfl, by simp [Part2.clickEvent, hne]⟩

/-- C4 witness: a click on the unknown event-9 against a catalog holding
only event-1. -/
theorem c4_click_self_heals_witness :
    (Part3.clickEvent 7 "" "" "" none "" [] [⟨"event-1", "t", "d", 0, 0⟩]
      = (.invalidInput, [], [⟨"event-1", "t", "d", 0, 0⟩]))
    ∧ (Part3.clickEvent 7 "event-9" "" "" none "" [] [⟨"event-1", "t", "d", 0, 0⟩]).1 = .ok
    ∧ ((Part3.clickEvent 7 "event-9" "" "" none "" [] [⟨"event-1", "t", "d", 0, 0⟩]).2.1
      = [] ++ [⟨"event-9", if "" = "" then "event-9" else "",
                if "" = "" then "unknown" else "", none,
                if "" = "" then "anonymous" else "", 7⟩])
    ∧ (Part3.clickCountOf
        (Part3.clickEvent 7 "event-9" "" "" none "" [] [⟨"event-1", "t", "d", 0, 0⟩]).2.2
        "event-9"
      = Part3.clickCountOf [⟨"event-1", "t", "d", 0, 0⟩] "event-9" + 1)
    ∧ (([⟨"event-1", "t", "d", 0, 0⟩] : List Part3.Event).find?
          (fun e => e.eventId == "event-9") = none →
        (Part3.clickEvent 7 "event-9" "" "" none ""
            [] [⟨"event-1", "t", "d", 0, 0⟩]).2.2.find?
            (fun e => e.eventId == "event-9")
          = some ⟨"event-9", "", "", 0, 1⟩)
    ∧ (Part2.clickEvent "" = .invalidInput ∧ Part2.clickEvent "event-9" = .ok) :=
  c4_click_self_heals 7 "event-9" "" "" "" none [] [⟨"event-1", "t", "d", 0, 0⟩]
    (by decide)

/-! ## C5 -/

/-- C5 counterexample.  The claim says every variant of saveEvent fails
with NotFound on an eventId outside the catalog, leaving the actor
saved set unchanged.  The part_001 handler performs no catalog check on
either path: saving the unknown "event-unknown" for a resolved memory
actor succeeds and mutates the saved set. -/
theorem c5_save_notFound_counterexample :
    ((Part1.save 5 (some ⟨"u1", "a@x.com"⟩) "event-unknown"
        ⟨false, [], [⟨"u1", "a@x.com", "a", [], 1, 0, 0⟩]⟩).1
      = .okMem ["event-unknown"])
    ∧ ((Part1.save 5 (some ⟨"u1", "a@x.com"⟩) "event-unknown"
        ⟨false, [], [⟨"u1", "a@x.com", "a", [], 1, 0, 0⟩]⟩).2
      ≠ ⟨false, [], [⟨"u1", "a@x.com", "a", [], 1, 0, 0⟩]⟩) := by
  decide

/-- C5 (amended).  In the part_003 variant, saveEvent on an eventId that
is not in the catalog fails with NotFound and leaves the actor and the
whole catalog (hence every counter) unchanged, for every actor and every
unknown non-empty eventId.  The part_001 variant has no catalog check and
accepts unknown eventIds (see the counterexample). -/
theorem c5_save_notFound_part3 (now : Int) (u : Part3.User) (eid : String)
    (events : List Part3.Event) (hne : eid ≠ "")
    (habs : events.find? (fun e => e.eventId == eid) = none) :
    Part3.saveEvent now u eid events = (.notFound, u, events) := by
  simp [Part3.saveEvent, hne, habs]

/-- C5 witness: saving the unknown event-9 against a catalog holding only
event-1. -/
theorem c5_save_notFound_part3_witness :
    Part3.saveEvent 5 ⟨"id1", "a@x.com", "a", [], 1, 0, 0⟩ "event-9"
        [⟨"event-1", "t", "d", 0, 0⟩]
      = (.notFound, ⟨"id1", "a@x.com", "a", [], 1, 0, 0⟩,
         [⟨"event-1", "t", "d", 0, 0⟩]) :=
  c5_save_notFound_part3 5 ⟨"id1", "a@x.com", "a", [], 1, 0, 0⟩ "event-9"
    [⟨"event-1", "t", "d", 0, 0⟩] (by decide) (by decide)

/-! ## C6 -/

/-- C6.  register (part_003) fails with InvalidInput exactly when the
email is missing or lacks an "@" (trim and lowercase cannot add or remove
the "@", so checking the raw email is equivalent); otherwise the lookup
key and any stored email is the normalised `email.toLowerCase().trim()`.
When an actor with the normalised email exists, register refreshes
lastVisit, increments visitCount by one, and answers with the existing
actor flagged isNewActor=false; otherwise it appends a fresh actor with
visitCount 1, firstVisit/lastVisit set to now, and answers
isNewActor=true. -/
theorem c6_register (now : Int) (mongoId email : String) (users : List Part3.User) :
    ((Part3.register now mongoId email users).1 = .invalidInput
      ↔ (email = "" ∨ jsIncludesAt email = false))
    ∧ (∀ u, users.find? (fun v => v.email == Part3.cleanEmail email) = some u →
        email ≠ "" → jsIncludesAt email = true →
        (Part3.register now mongoId email users).1
            = .ok ⟨u.id, u.email,
                   if u.name = "" then jsLocalPart u.email else u.name,
                   u.savedEvents, u.visitCount + 1, false⟩
          ∧ (Part3.register now mongoId email users).2
            = Part3.replaceUser users (Part3.cleanEmail email)
                { u with lastVisit := now, visitCount := u.visitCount + 1 })
    ∧ (users.find? (fun v => v.email == Part3.cleanEmail email) = none →
        email ≠ "" → jsIncludesAt email = true →
        (Part3.register now mongoId email users).1
            = .ok ⟨mongoId, Part3.cleanEmail email,
                   jsLocalPart (Part3.cleanEmail email), [], 1, true⟩
          ∧ (Part3.register now mongoId email users).2
            = users ++ [⟨mongoId, Part3.cleanEmail email,
                         jsLocalPart (Part3.cleanEmail email), [], 1, now, now⟩]) := by
  refine ⟨?_, ?_, ?_⟩
  · constructor
    · intro h
      by_contra hc
      push_neg at hc
      obtain ⟨h1, h2⟩ := hc
      have h2' : jsIncludesAt email = true := by
        cases hx : jsIncludesAt email
        · exact absurd hx h2
        · rfl
      rw [Part3.register] at h
      simp [h1, h2'] at h
      cases hf : users.find? (fun v => v.email == Part3.cleanEmail email) <;>
        simp [hf] at h
    · intro h
      rcases h with h | h <;> simp [Part3.register, h]
  · intro u hf h1 h2
    constructor <;> simp [Part3.register, h1, h2, hf]
  · intro hf h1 h2
    constructor <;> simp [Part3.register, h1, h2, hf]

/-- C6 witness: a malformed email, an existing actor reached through a
mixed-case padded email, and a fresh registration. -/
theorem c6_register_witness :
    ((Part3.register 5 "m1" "bad-email" []).1 = .invalidInput)
    ∧ ((Part3.register 7 "m2" " A@x.com "
          [⟨"id1", "a@x.com", "a", [], 3, 0, 0⟩]).1
        = .ok ⟨"id1", "a@x.com", "a", [], 4, false⟩)
    ∧ ((Part3.register 9 "m3" "B@y.org" []).1
        = .ok ⟨"m3", "b@y.org", "b", [], 1, true⟩) := by
  refine ⟨?_, ?_, ?_⟩
  · exact (c6_register 5 "m1" "bad-email" []).1.mpr (Or.inr (by decide))
  · have h := ((c6_register 7 "m2" " A@x.com "
        [⟨"id1", "a@x.com", "a", [], 3, 0, 0⟩]).2.1
      ⟨"id1", "a@x.com", "a", [], 3, 0, 0⟩ (by decide) (by decide) (by decide)).1
    simpa using h
  · have h := ((c6_register 9 "m3" "B@y.org" []).2.2
      (by decide) (by decide) (by decide)).1
    simpa using h

/-! ## C7 -/

/-- C7 counterexample.  The claim says a cohort younger than 7 days
contributes nothing to the 7-day retention denominator.  In the server.js
report the per-cohort `totalUsers` — the only denominator the report
carries, used for every horizon — always counts the cohort: a sole user
first seen 2 days ago yields a cohort row with totalUsers 1, not 0. -/
theorem c7_retention_counterexample :
    ¬ (∀ (now : Int) (s : ServerJs.Session),
        0 ≤ now - s.firstVisit →
        ServerJs.daysSinceFirst now s.firstVisit < 7 →
        ((ServerJs.cohortsOf now [s]).map (fun c => c.totalUsers)).sum = 0) := by
  intro h
  exact absurd
    (h (100 * dayMs) ⟨98 * dayMs, 2, some (100 * dayMs - 1)⟩ (by decide) (by decide))
    (by decide)

/-- C7 (amended).  The age exclusion is applied to the numerators only:
for a cohort younger than 7 days the report row carries returnedDay7 =
returnedDay30 = 0 (never a counted "retention success") but its
totalUsers denominator still counts it (value 1 for a singleton cohort);
such an actor is still counted daily-active when the last visit is within
one day; and the part_003 `calculateRetention` uses the count of all
users as its denominator with no age exclusion at all. -/
theorem c7_retention_age_gated (now : Int) (s : ServerJs.Session)
    (hyoung : ServerJs.daysSinceFirst now s.firstVisit < 7) :
    ((ServerJs.cohortsOf now [s]).map
        (fun c => (c.totalUsers, c.returnedDay7, c.returnedDay30))
      = [(1, 0, 0)])
    ∧ (∀ t, s.lastVisit = some t → now - dayMs < t →
        ServerJs.dailyActive now [s] = 1)
    ∧ (∀ (now2 : Int) (users : List Part3.User),
        (Part3.calculateRetention now2 users).totalUsers = users.length) := by
  have h7 : (decide (7 ≤ ServerJs.daysSinceFirst now s.firstVisit)) = false :=
    decide_eq_false (by omega)
  have h30 : (decide (30 ≤ ServerJs.daysSinceFirst now s.firstVisit)) = false :=
    decide_eq_false (by omega)
  refine ⟨?_, ?_, ?_⟩
  · simp [ServerJs.cohortsOf, ServerJs.addToCohorts, h7, h30]
  · intro t ht hlt
    simp [ServerJs.dailyActive, ht, hlt]
  · intro now2 users
    simp [Part3.calculateRetention]

/-- C7 witness: a sole cohort formed two days ago whose user returned and
was active within the last day. -/
theorem c7_retention_age_gated_witness :
    (((ServerJs.cohortsOf (100 * dayMs) [⟨98 * dayMs, 2, some (100 * dayMs - 1)⟩]).map
        (fun c => (c.totalUsers, c.returnedDay7, c.returnedDay30)))
      = [(1, 0, 0)])
    ∧ (ServerJs.dailyActive (100 * dayMs) [⟨98 * dayMs, 2, some (100 * dayMs - 1)⟩] = 1)
    ∧ ((Part3.calculateRetention (100 * dayMs)
        [⟨"i", "a@x.com", "a", [], 2, 98 * dayMs, 98 * dayMs⟩]).totalUsers = 1) :=
  ⟨(c7_retention_age_gated (100 * dayMs) ⟨98 * dayMs, 2, some (100 * dayMs - 1)⟩
      (by decide)).1,
   (c7_retention_age_gated (100 * dayMs) ⟨98 * dayMs, 2, some (100 * dayMs - 1)⟩
      (by decide)).2.1 (100 * dayMs - 1) rfl (by decide),
   by
    simpa using (c7_retention_age_gated (100 * dayMs)
        ⟨98 * dayMs, 2, some (100 * dayMs - 1)⟩ (by decide)).2.2 (100 * dayMs)
      [⟨"i", "a@x.com", "a", [], 2, 98 * dayMs, 98 * dayMs⟩]⟩

/-! ## C8 -/

/-- A search that fails on the first list continues on the appended
list. -/
theorem find?_append_none {α : Type} (p : α → Bool) (l₁ l₂ : List α)
    (h : l₁.find? p = none) : (l₁ ++ l₂).find? p = l₂.find? p := by
  induction l₁ with
  | nil => simp
  | cons a l ih =>
    by_cases hpa : p a
    · rw [List.find?_cons_of_pos _ hpa] at h
      simp at h
    · rw [List.find?_cons_of_neg _ hpa] at h
      rw [List.cons_append, List.find?_cons_of_neg _ hpa]
      exact ih h

/-- C8 counterexample.  The claim says an object written while the
durable backend is reachable is never reported NotFound by a later read
after fallback.  The durable register path stores the user only in
MongoDB (never mirrored to memory), so after the connection drops the
profile read falls through to the empty memory store and answers
NotFound. -/
theorem c8_fallback_counterexample :
    ((Part1.register 1000 "aaa" "m1" "a@x.com" ⟨true, [], []⟩).1
      = .ok ⟨"m1", "a@x.com", "a", 1, ⟨"m1", "a@x.com"⟩⟩)
    ∧ (Part1.profile (some ⟨"m1", "a@x.com"⟩)
        { (Part1.register 1000 "aaa" "m1" "a@x.com" ⟨true, [], []⟩).2 with
            durable := false }
      = .notFound) := by
  decide

/-- C8 (amended).  While the durable backend stays reachable a durable
write is read back (register then profile finds the new actor); but once
the process is in memory mode, profile consults only the in-memory store
— the durable store content is invisible — so a durable-only write is
reported NotFound after fallback (see the counterexample); continuity
does not hold. -/
theorem c8_fallback_reads (now : Int) (rand mongoId email : String) (st : Part1.St)
    (hdur : st.durable = true)
    (hvalid : (email = "" || !(jsIncludesAt email)) = false)
    (hfresh : st.mongoUsers.find?
        (fun u => u.email == jsTrim (jsToLower email)) = none)
    (hid : ∀ u ∈ st.mongoUsers, (u.id == mongoId) = false) :
    ((Part1.register now rand mongoId email st).1
      = .ok ⟨mongoId, jsTrim (jsToLower email),
             Part1.nameOf (jsTrim (jsToLower email)), 1,
             ⟨mongoId, jsTrim (jsToLower email)⟩⟩)
    ∧ (Part1.profile (some ⟨mongoId, jsTrim (jsToLower email)⟩)
          (Part1.register now rand mongoId email st).2
        = .ok mongoId (jsTrim (jsToLower email)) 1)
    ∧ (∀ tok st2, st2.durable = false →
        Part1.profile tok st2 = Part1.profile tok ⟨false, [], st2.memUsers⟩) := by
  have hreg : Part1.register now rand mongoId email st
      = (.ok ⟨mongoId, jsTrim (jsToLower email),
              Part1.nameOf (jsTrim (jsToLower email)), 1,
              ⟨mongoId, jsTrim (jsToLower email)⟩⟩,
         { st with mongoUsers := st.mongoUsers
             ++ [⟨mongoId, jsTrim (jsToLower email),
                  Part1.nameOf (jsTrim (jsToLower email)), [], 1, now, now⟩] }) := by
    simp [Part1.register, hvalid, hdur, hfresh, Part1.generateToken]
  have hnone : st.mongoUsers.find? (fun u => u.id == mongoId) = none :=
    List.find?_eq_none.mpr (by
      intro u hu
      simp [hid u hu])
  refine ⟨by rw [hreg], ?_, ?_⟩
  · rw [hreg]
    have happ := find?_append_none (fun u : Part1.MUser => u.id == mongoId)
      st.mongoUsers
      [⟨mongoId, jsTrim (jsToLower email),
        Part1.nameOf (jsTrim (jsToLower email)), [], 1, now, now⟩] hnone
    simp [Part1.profile, Part1.verifyToken, hdur, happ]
  · intro tok st2 h2
    cases tok with
    | none => rfl
    | some t => simp [Part1.profile, Part1.verifyToken, h2, Part1.memFind]

/-- C8 witness: a fresh durable registration read back in durable mode,
and a memory-mode read that ignores the durable store. -/
theorem c8_fallback_reads_witness :
    ((Part1.register 1000 "aaa" "m1" "a@x.com" ⟨true, [], []⟩).1
      = .ok ⟨"m1", jsTrim (jsToLower "a@x.com"),
             Part1.nameOf (jsTrim (jsToLower "a@x.com")), 1,
             ⟨"m1", jsTrim (jsToLower "a@x.com")⟩⟩)
    ∧ (Part1.profile (some ⟨"m1", jsTrim (jsToLower "a@x.com")⟩)
          (Part1.register 1000 "aaa" "m1" "a@x.com" ⟨true, [], []⟩).2
        = .ok "m1" (jsTrim (jsToLower "a@x.com")) 1)
    ∧ (Part1.profile (some ⟨"u9", "z@z.org"⟩)
          ⟨false, [⟨"u9", "z@z.org", "z", [], 1, 0, 0⟩], []⟩
        = Part1.profile (some ⟨"u9", "z@z.org"⟩) ⟨false, [], []⟩) :=
  ⟨(c8_fallback_reads 1000 "aaa" "m1" "a@x.com" ⟨true, [], []⟩ rfl (by decide)
      (by decide) (by intro u hu; simp at hu)).1,
   (c8_fallback_reads 1000 "aaa" "m1" "a@x.com" ⟨true, [], []⟩ rfl (by decide)
      (by decide) (by intro u hu; simp at hu)).2.1,
   (c8_fallback_reads 1000 "aaa" "m1" "a@x.com" ⟨true, [], []⟩ rfl (by decide)
      (by decide) (by intro u hu; simp at hu)).2.2
     (some ⟨"u9", "z@z.org"⟩) ⟨false, [⟨"u9", "z@z.org", "z", [], 1, 0, 0⟩], []⟩ rfl⟩

/-! ## C9 -/

/-- The eventId projection of the durable save step equals the memory
save step on the projected set. -/
theorem Part1.map_mongoSaveList (now : Int) (eid : String)
    (l : List Part1.MSavedEntry) :
    (Part1.mongoSaveList now eid l).map (fun e => e.eventId)
      = Part1.memSaveList eid (l.map (fun e => e.eventId)) := by
  have hc : (l.map (fun e => e.eventId)).any (fun s => s == eid)
      = l.any (fun e => e.eventId == eid) := by
    induction l with
    | nil => rfl
    | cons e l ih => simp [List.any_cons, ih]
  rw [Part1.mongoSaveList, Part1.memSaveList, hc]
  by_cases h : l.any (fun e => e.eventId == eid) <;> simp [h]

/-- The eventId projection of the durable unsave step equals the memory
unsave step on the projected set. -/
theorem Part1.map_mongoUnsaveList (eid : String) (l : List Part1.MSavedEntry) :
    (Part1.mongoUnsaveList eid l).map (fun e => e.eventId)
      = Part1.memUnsaveList eid (l.map (fun e => e.eventId)) := by
  induction l with
  | nil => rfl
  | cons e l ih =>
    simp only [Part1.mongoUnsaveList, Part1.memUnsaveList] at *
    by_cases h : e.eventId = eid
    · simp [List.filter_cons, h, ih]
    · simp [List.filter_cons, h, ih]

/-- C9 (amended).  The durable-path and memory-path saved sets agree on
the sequence of saved eventIds after every sequence of save/unsave
requests started from projection-equal sets; the caller-visible values
differ only in shape — `{ eventId, savedAt }` objects versus bare strings
(see the counterexample). -/
theorem c9_saved_ids_agree (ops : List Part1.EngOp) (l : List Part1.MSavedEntry) :
    (Part1.runMongo ops l).map (fun e => e.eventId)
      = Part1.runMem ops (l.map (fun e => e.eventId)) := by
  induction ops generalizing l with
  | nil => rfl
  | cons op ops ih =>
    cases op with
    | save now eid =>
      have h1 : Part1.runMongo (.save now eid :: ops) l
          = Part1.runMongo ops (Part1.mongoSaveList now eid l) := rfl
      have h2 : Part1.runMem (.save now eid :: ops) (l.map (fun e => e.eventId))
          = Part1.runMem ops (Part1.memSaveList eid (l.map (fun e => e.eventId))) := rfl
      rw [h1, h2, ih, Part1.map_mongoSaveList]
    | unsave eid =>
      have h1 : Part1.runMongo (.unsave eid :: ops) l
          = Part1.runMongo ops (Part1.mongoUnsaveList eid l) := rfl
      have h2 : Part1.runMem (.unsave eid :: ops) (l.map (fun e => e.eventId))
          = Part1.runMem ops (Part1.memUnsaveList eid (l.map (fun e => e.eventId))) := rfl
      rw [h1, h2, ih, Part1.map_mongoUnsaveList]

/-- C9 counterexample.  The claim says the two variants produce equal
caller-visible outputs.  Saving event-1 for the same (projection-equal)
actor yields `savedEvents: [{ eventId: "event-1", savedAt: ... }]` on the
durable path but `savedEvents: ["event-1"]` on the memory path — the
encoded responses differ. -/
theorem c9_output_shape_counterexample :
    Part1.encodeResult (Part1.save 5 (some ⟨"u1", "a@x.com"⟩) "event-1"
        ⟨true, [⟨"u1", "a@x.com", "a", [], 1, 0, 0⟩], []⟩).1
      ≠ Part1.encodeResult (Part1.save 5 (some ⟨"u1", "a@x.com"⟩) "event-1"
        ⟨false, [], [⟨"u1", "a@x.com", "a", [], 1, 0, 0⟩]⟩).1 := by
  decide

/-! ## C10 -/

/-- C10 (amended).  The minted credential resolves to the responded actor
on the durable path (token userId always equals the response id) and for
a first-time memory registration (both are the freshly minted id); but
for an existing memory-path actor the token is signed with a freshly
minted userId — not the stored id the response carries — so the claimed
equality fails there (see the counterexample). -/
theorem c10_token_binding (now : Int) (rand mongoId email : String) (st : Part1.St)
    (hvalid : (email = "" || !(jsIncludesAt email)) = false) :
    (st.durable = true →
      (Part1.register now rand mongoId email st).1.tokenUserId
        = (Part1.register now rand mongoId email st).1.respId)
    ∧ (st.durable = false →
        st.memUsers.find? (fun u => u.email == jsTrim (jsToLower email)) = none →
        (Part1.register now rand mongoId email st).1.tokenUserId
            = (Part1.register now rand mongoId email st).1.respId
          ∧ (Part1.register now rand mongoId email st).1.respId
            = some (Part1.mintUserId now rand))
    ∧ (st.durable = false →
        ∀ u, st.memUsers.find? (fun v => v.email == jsTrim (jsToLower email)) = some u →
          (Part1.register now rand mongoId email st).1.respId = some u.id
          ∧ (Part1.register now rand mongoId email st).1.tokenUserId
            = some (Part1.mintUserId now rand)) := by
  refine ⟨?_, ?_, ?_⟩
  · intro hdur
    cases hf : st.mongoUsers.find? (fun u => u.email == jsTrim (jsToLower email)) <;>
      simp [Part1.register, hvalid, hdur, hf, Part1.generateToken,
        Part1.RegResult1.tokenUserId, Part1.RegResult1.respId]
  · intro hdur hf
    simp [Part1.register, hvalid, hdur, hf, Part1.generateToken,
      Part1.RegResult1.tokenUserId, Part1.RegResult1.respId]
  · intro hdur u hf
    simp [Part1.register, hvalid, hdur, hf, Part1.generateToken,
      Part1.RegResult1.tokenUserId, Part1.RegResult1.respId]

/-- C10 witness: the durable path, a first-time memory registration, and
a repeat memory registration of the same email. -/
theorem c10_token_binding_witness :
    ((Part1.register 1000 "aaa" "m1" "a@x.com" ⟨true, [], []⟩).1.tokenUserId
      = (Part1.register 1000 "aaa" "m1" "a@x.com" ⟨true, [], []⟩).1.respId)
    ∧ ((Part1.register 1000 "aaa" "m1" "a@x.com" ⟨false, [], []⟩).1.tokenUserId
      = (Part1.register 1000 "aaa" "m1" "a@x.com" ⟨false, [], []⟩).1.respId)
    ∧ ((Part1.register 2000 "bbb" "m2" "a@x.com"
          ⟨false, [], [⟨"user_1000_aaa", "a@x.com", "a", [], 1, 0, 0⟩]⟩).1.respId
        = some "user_1000_aaa")
    ∧ ((Part1.register 2000 "bbb" "m2" "a@x.com"
          ⟨false, [], [⟨"user_1000_aaa", "a@x.com", "a", [], 1, 0, 0⟩]⟩).1.tokenUserId
        = some (Part1.mintUserId 2000 "bbb")) :=
  ⟨(c10_token_binding 1000 "aaa" "m1" "a@x.com" ⟨true, [], []⟩ (by decide)).1 rfl,
   ((c10_token_binding 1000 "aaa" "m1" "a@x.com" ⟨false, [], []⟩ (by decide)).2.1
      rfl (by decide)).1,
   ((c10_token_binding 2000 "bbb" "m2" "a@x.com"
        ⟨false, [], [⟨"user_1000_aaa", "a@x.com", "a", [], 1, 0, 0⟩]⟩ (by decide)).2.2
      rfl ⟨"user_1000_aaa", "a@x.com", "a", [], 1, 0, 0⟩ (by decide)).1,
   ((c10_token_binding 2000 "bbb" "m2" "a@x.com"
        ⟨false, [], [⟨"user_1000_aaa", "a@x.com", "a", [], 1, 0, 0⟩]⟩ (by decide)).2.2
      rfl ⟨"user_1000_aaa", "a@x.com", "a", [], 1, 0, 0⟩ (by decide)).2⟩

/-- C10 counterexample.  Registering the same email twice in memory mode:
the second response carries the stored actor id user_1000_aaa while its
token is signed with the freshly minted user_2000_bbb — verifying the
returned token does not yield the id of the returned user. -/
theorem c10_token_counterexample :
    ((Part1.register 2000 "bbb" "m2" "a@x.com"
        (Part1.register 1000 "aaa" "m1" "a@x.com" ⟨false, [], []⟩).2).1.respId
      = some "user_1000_aaa")
    ∧ ((Part1.register 2000 "bbb" "m2" "a@x.com"
        (Part1.register 1000 "aaa" "m1" "a@x.com" ⟨false, [], []⟩).2).1.tokenUserId
      = some "user_2000_bbb")
    ∧ ((Part1.register 2000 "bbb" "m2" "a@x.com"
        (Part1.register 1000 "aaa" "m1" "a@x.com" ⟨false, [], []⟩).2).1.respId
      ≠ (Part1.register 2000 "bbb" "m2" "a@x.com"
        (Part1.register 1000 "aaa" "m1" "a@x.com" ⟨false, [], []⟩).2).1.tokenUserId) := by
  decide

end WebiBook
